import Mathlib

/-!
Shallow embedding of the APPI backend (src/index.js): an Express router over
a Firestore `tasks` collection and a Realtime Database `chats` path.

Request bodies are dynamic JSON, so body fields are modelled as
`Option JsValue` (`none` = field absent, i.e. `undefined` after
destructuring).  Each handler becomes a pure function from the request data
and the handler's current time to a response record that also exposes the
write (if any) the handler sends to the store, so that "returns 400 before
any store call" is a statement about the function's result.
-/

/-- A JSON/JavaScript value as it appears in a request body or a stored
record.  `vNull` doubles for JSON null. -/
inductive JsValue where
  | vNull : JsValue
  | vBool (b : Bool) : JsValue
  | vNum (n : Int) : JsValue
  | vStr (s : String) : JsValue
deriving DecidableEq, Repr

/-- JavaScript truthiness of a defined value: `null`, `false`, `0` and the
empty string are falsy, everything else is truthy. -/
def JsValue.truthy : JsValue → Bool
  | .vNull => false
  | .vBool b => b
  | .vNum n => !(n == 0)
  | .vStr s => !(s == "")

/-- Truthiness of a possibly-absent body field: a missing field destructures
to `undefined`, which is falsy. -/
def optTruthy : Option JsValue → Bool
  | none => false
  | some v => v.truthy

/-- `status || false` from the update handler: a truthy value is kept
verbatim, a falsy or missing value becomes the boolean `false`. -/
def jsOrFalse : Option JsValue → JsValue
  | none => .vBool false
  | some v => if v.truthy then v else .vBool false

/-! ## POST /to-do-list (create a task), src/index.js lines 26-48 -/

structure CreateBody where
  title : Option JsValue
  description : Option JsValue
deriving Repr

/-- The record the create handler sends to `db.collection('tasks').add`. -/
structure TaskRecord where
  title : JsValue
  description : JsValue
  status : JsValue
  createdAt : Nat
  updatedAt : Nat
deriving DecidableEq, Repr

/-- The observable outcome of the create handler: HTTP status, the id echoed
back to the caller, and the record written to the store (if any). -/
structure CreateResponse where
  status : Nat
  id : Option String
  write : Option TaskRecord
deriving DecidableEq, Repr

/-- POST /to-do-list.  `now` is the handler's current time (`new Date()`),
`assignedId` the identifier the document store assigns on `add`. -/
def postToDoList (body : CreateBody) (now : Nat) (assignedId : String) :
    CreateResponse :=
  if !(optTruthy body.title) || !(optTruthy body.description) then
    { status := 400, id := none, write := none }
  else
    { status := 201
      id := some assignedId
      write := some
        { title := body.title.getD .vNull
          description := body.description.getD .vNull
          status := .vBool false
          createdAt := now
          updatedAt := now } }

/-! ## PUT /todo/:id (edit a task), src/index.js lines 51-73 -/

structure UpdateBody where
  title : Option JsValue
  description : Option JsValue
  status : Option JsValue
deriving Repr

/-- The record the update handler passes to `taskRef.update`: exactly the
fields title, description, status and updatedAt — no createdAt. -/
structure UpdateRecord where
  title : JsValue
  description : JsValue
  status : JsValue
  updatedAt : Nat
deriving DecidableEq, Repr

structure UpdateResponse where
  status : Nat
  write : Option UpdateRecord
deriving DecidableEq, Repr

/-- PUT /todo/:id.  `now` is the handler's current time. -/
def putTodo (body : UpdateBody) (now : Nat) : UpdateResponse :=
  if !(optTruthy body.title) || !(optTruthy body.description) then
    { status := 400, write := none }
  else
    { status := 200
      write := some
        { title := body.title.getD .vNull
          description := body.description.getD .vNull
          status := jsOrFalse body.status
          updatedAt := now } }

/-- A task document as stored in the collection. -/
structure StoredTask where
  title : JsValue
  description : JsValue
  status : JsValue
  createdAt : Nat
  updatedAt : Nat
deriving DecidableEq, Repr

/-- Firestore `update` merges the given fields into the existing document:
fields absent from the update record (here `createdAt`) are left as they
were. -/
def applyUpdate (old : StoredTask) (u : UpdateRecord) : StoredTask :=
  { title := u.title
    description := u.description
    status := u.status
    createdAt := old.createdAt
    updatedAt := u.updatedAt }

/-! ## GET /list (list tasks), src/index.js lines 76-118 -/

/-- A task document as fetched by the list handler (`doc.data()` plus the
document id).  Listed titles and descriptions are strings and `status` a
boolean, per the data model of the records this service writes. -/
structure ListTask where
  id : String
  title : String
  description : String
  status : Bool
  createdAt : Nat
deriving DecidableEq, Repr

/-- Byte-order lexicographic `≤` on strings (code-point order, which agrees
with the document store's UTF-8 ordering of string fields). -/
def charListLe : List Char → List Char → Bool
  | [], _ => true
  | _ :: _, [] => false
  | a :: as, b :: bs => a < b || (a == b && charListLe as bs)

def strLe (a b : String) : Bool := charListLe a.data b.data

/-- `sub` occurs as a contiguous substring of `l` (JS `String.includes`). -/
def hasSubList (sub : List Char) : List Char → Bool
  | [] => sub.isEmpty
  | c :: t => sub.isPrefixOf (c :: t) || hasSubList sub t

def strIncludes (s sub : String) : Bool := hasSubList sub.data s.data

/-- Per-character lowercasing (JS `String.prototype.toLowerCase`). -/
def strToLower (s : String) : String := String.mk (s.data.map Char.toLower)

/-- Truthiness of an optional query-string parameter (`if (search)`):
present and non-empty. -/
def strOptTruthy : Option String → Bool
  | none => false
  | some s => !(s == "")

/-- The store-side range prefilter on titles:
`where('title','>=',search).where('title','<=',search+'')`. -/
def titleInRange (search title : String) : Bool :=
  strLe search title && strLe title (search ++ "")

/-- The base query the handler sends to the store: the whole collection, or
the title-range query when a truthy `search` is given.  The store returns
documents of this query in its native order. -/
def baseQuery (search : Option String) (store : List ListTask) :
    List ListTask :=
  if strOptTruthy search then
    store.filter (fun t => titleInRange (search.getD "") t.title)
  else store

/-- The in-memory authoritative filter:
`!search || title.toLowerCase().includes(...) || description...`. -/
def matchesSearch (search : Option String) (t : ListTask) : Bool :=
  !(strOptTruthy search)
  || strIncludes (strToLower t.title) (strToLower (search.getD ""))
  || strIncludes (strToLower t.description) (strToLower (search.getD ""))

/-- The comparator-induced order for `sortBy=timestamp`: the JS comparator
returns `dateA - dateB` for `asc` and `dateB - dateA` otherwise. -/
def tsLe (order : String) (a b : ListTask) : Bool :=
  if order = "asc" then decide (a.createdAt ≤ b.createdAt)
  else decide (b.createdAt ≤ a.createdAt)

def statusNum (b : Bool) : Nat := if b then 1 else 0

/-- The comparator-induced order for `sortBy=status` (booleans coerced to
numbers by the subtraction). -/
def stLe (order : String) (a b : ListTask) : Bool :=
  if order = "asc" then decide (statusNum a.status ≤ statusNum b.status)
  else decide (statusNum b.status ≤ statusNum a.status)

structure ListResponse where
  status : Nat
  tasks : List ListTask
deriving DecidableEq, Repr

structure ListParams where
  sortBy : Option String
  order : Option String
  search : Option String
deriving Repr

/-- The sort stage: JS `Array.prototype.sort` is stable, modelled by
`List.mergeSort`; an unrecognised or absent `sortBy` leaves the list as
fetched. -/
def sortTasks (sortBy : Option String) (order : String)
    (tasks : List ListTask) : List ListTask :=
  if sortBy = some "timestamp" then tasks.mergeSort (tsLe order)
  else if sortBy = some "status" then tasks.mergeSort (stLe order)
  else tasks

/-- GET /list.  `store` is the `tasks` collection in the store's native
order; `order` defaults to "desc" when the parameter is absent. -/
def listHandler (params : ListParams) (store : List ListTask) :
    ListResponse :=
  let base := baseQuery params.search store
  if base.isEmpty then { status := 404, tasks := [] }
  else
    { status := 200
      tasks := sortTasks params.sortBy (params.order.getD "desc")
                 (base.filter (matchesSearch params.search)) }

/-! ## POST /chat (post a chat message), src/index.js lines 136-157 -/

structure ChatBody where
  username : Option JsValue
  message : Option JsValue
deriving Repr

/-- The record the chat handler writes with `chatRef.set`. -/
structure ChatWrite where
  username : JsValue
  message : JsValue
  timestamp : Nat
deriving DecidableEq, Repr

structure ChatPostResponse where
  status : Nat
  id : Option String
  write : Option ChatWrite
deriving DecidableEq, Repr

/-- POST /chat.  `now` is `Date.now()`, `key` the push-generated child
key. -/
def postChat (body : ChatBody) (now : Nat) (key : String) :
    ChatPostResponse :=
  if !(optTruthy body.username) || !(optTruthy body.message) then
    { status := 400, id := none, write := none }
  else
    { status := 201
      id := some key
      write := some
        { username := body.username.getD .vNull
          message := body.message.getD .vNull
          timestamp := now } }

/-! ## GET /chats (list chat messages), src/index.js lines 160-179 -/

/-- A chat message stored under the `chats` path. -/
structure ChatMsg where
  username : JsValue
  message : JsValue
  timestamp : Nat
deriving DecidableEq, Repr

/-- A message as returned to the caller: the stored fields tagged with the
child key as `id`. -/
structure TaggedMsg where
  id : String
  username : JsValue
  message : JsValue
  timestamp : Nat
deriving DecidableEq, Repr

/-- The child order induced by `orderByChild('timestamp')`. -/
def chatLe (a b : String × ChatMsg) : Bool :=
  decide (a.2.timestamp ≤ b.2.timestamp)

/-- The snapshot of `rtdb.ref('chats').orderByChild('timestamp')`: the
children (given in the store's key order) sorted stably by the `timestamp`
child, as the realtime store's child-ordering index maintains them. -/
def orderedChildren (store : List (String × ChatMsg)) :
    List (String × ChatMsg) :=
  store.mergeSort chatLe

structure ChatsResponse where
  status : Nat
  messages : List TaggedMsg
deriving DecidableEq, Repr

def tagMsg (kv : String × ChatMsg) : TaggedMsg :=
  { id := kv.1
    username := kv.2.username
    message := kv.2.message
    timestamp := kv.2.timestamp }

/-- GET /chats.  `store` is the child list under the `chats` path in key
order. -/
def getChats (store : List (String × ChatMsg)) : ChatsResponse :=
  let snapshot := orderedChildren store
  if snapshot.isEmpty then { status := 404, messages := [] }
  else { status := 200, messages := snapshot.map tagMsg }

/-! ## Helper lemmas -/

theorem truthy_vStr_ne {s : String} (h : (JsValue.vStr s).truthy = true) :
    s ≠ "" := by
  simp [JsValue.truthy] at h
  exact h

theorem optTruthy_some {o : Option JsValue} (h : optTruthy o = true) :
    ∃ v, o = some v ∧ v.truthy = true := by
  cases o with
  | none => simp [optTruthy] at h
  | some v => exact ⟨v, rfl, h⟩

theorem mem_sortTasks {t : ListTask} {sb : Option String} {o : String}
    {l : List ListTask} : t ∈ sortTasks sb o l ↔ t ∈ l := by
  unfold sortTasks
  split
  · exact List.mem_mergeSort
  · split
    · exact List.mem_mergeSort
    · exact Iff.rfl

theorem tsLe_trans (o : String) (a b c : ListTask)
    (h1 : tsLe o a b) (h2 : tsLe o b c) : tsLe o a c := by
  unfold tsLe at h1 h2 ⊢
  split at h1 <;> simp_all <;> omega

theorem tsLe_total (o : String) (a b : ListTask) : tsLe o a b || tsLe o b a := by
  unfold tsLe
  split <;> simp <;> omega

/-! ## Claim theorems -/

/-- C1: a PUT /todo/:id request whose body has non-empty string title and
description results in a write of exactly an `UpdateRecord`
(title, description, status, updatedAt — no createdAt field): `status` is
the boolean false when the body omits it, `updatedAt` is the handler's
current time, and merging the update into any stored document leaves its
`createdAt` unchanged. -/
theorem putTodo_full_overwrite (body : UpdateBody) (now : Nat)
    (ti de : String)
    (ht : body.title = some (.vStr ti)) (hti : ti ≠ "")
    (hd : body.description = some (.vStr de)) (hde : de ≠ "") :
    ∃ u, putTodo body now = { status := 200, write := some u } ∧
      u.title = .vStr ti ∧ u.description = .vStr de ∧
      u.updatedAt = now ∧
      (body.status = none → u.status = .vBool false) ∧
      ∀ old, (applyUpdate old u).createdAt = old.createdAt := by
  refine ⟨{ title := .vStr ti, description := .vStr de,
            status := jsOrFalse body.status, updatedAt := now },
          ?_, rfl, rfl, rfl, ?_, fun old => rfl⟩
  · unfold putTodo
    rw [ht, hd]
    simp [optTruthy, JsValue.truthy, hti, hde]
  · intro h
    rw [h]
    rfl

theorem putTodo_full_overwrite_witness :
    ∃ u, putTodo { title := some (.vStr "T"), description := some (.vStr "D"),
                   status := none } 42 =
          { status := 200, write := some u } ∧
      u.title = .vStr "T" ∧ u.description = .vStr "D" ∧
      u.updatedAt = 42 ∧
      (({ title := some (.vStr "T"), description := some (.vStr "D"),
          status := none } : UpdateBody).status = none →
        u.status = .vBool false) ∧
      ∀ old, (applyUpdate old u).createdAt = old.createdAt :=
  putTodo_full_overwrite
    { title := some (.vStr "T"), description := some (.vStr "D"),
      status := none } 42 "T" "D" rfl (by decide) rfl (by decide)

/-- C3: a POST /to-do-list request with non-empty string title and
description returns 201 carrying the non-empty store-assigned id, and the
inserted record has `status = false` and `createdAt = updatedAt = now`. -/
theorem postToDoList_creates (body : CreateBody) (now : Nat)
    (assignedId : String) (ti de : String)
    (ht : body.title = some (.vStr ti)) (hti : ti ≠ "")
    (hd : body.description = some (.vStr de)) (hde : de ≠ "")
    (hid : assignedId ≠ "") :
    ∃ t, postToDoList body now assignedId =
        { status := 201, id := some assignedId, write := some t } ∧
      (∃ s, (postToDoList body now assignedId).id = some s ∧ s ≠ "") ∧
      t.status = .vBool false ∧
      t.createdAt = now ∧ t.updatedAt = now ∧ t.createdAt = t.updatedAt := by
  have hmain : postToDoList body now assignedId =
      { status := 201, id := some assignedId,
        write := some { title := .vStr ti, description := .vStr de,
                        status := .vBool false, createdAt := now,
                        updatedAt := now } } := by
    unfold postToDoList
    rw [ht, hd]
    simp [optTruthy, JsValue.truthy, hti, hde]
  exact ⟨_, hmain, ⟨assignedId, by rw [hmain], hid⟩, rfl, rfl, rfl, rfl⟩

theorem postToDoList_creates_witness :
    ∃ t, postToDoList { title := some (.vStr "A"),
                        description := some (.vStr "B") } 7 "doc1" =
        { status := 201, id := some "doc1", write := some t } ∧
      (∃ s, (postToDoList { title := some (.vStr "A"),
                            description := some (.vStr "B") } 7 "doc1").id =
          some s ∧ s ≠ "") ∧
      t.status = .vBool false ∧
      t.createdAt = 7 ∧ t.updatedAt = 7 ∧ t.createdAt = t.updatedAt :=
  postToDoList_creates
    { title := some (.vStr "A"), description := some (.vStr "B") }
    7 "doc1" "A" "B" rfl (by decide) rfl (by decide) (by decide)

/-- C6: a POST /to-do-list request with missing or falsy title or
description returns 400 and performs no store write. -/
theorem postToDoList_validation_no_write (body : CreateBody) (now : Nat)
    (assignedId : String)
    (h : optTruthy body.title = false ∨ optTruthy body.description = false) :
    postToDoList body now assignedId =
      { status := 400, id := none, write := none } := by
  unfold postToDoList
  rcases h with h | h <;> simp [h]

theorem postToDoList_validation_no_write_witness :
    postToDoList { title := some (.vStr "A"),
                   description := some (.vStr "") } 7 "doc1" =
      { status := 400, id := none, write := none } :=
  postToDoList_validation_no_write
    { title := some (.vStr "A"), description := some (.vStr "") }
    7 "doc1" (Or.inr (by decide))

/-- C10: for a PUT /todo/:id request that passes validation the stored
status is `status || false`: a truthy body value (of any type) is stored
verbatim, a falsy present value is stored as the boolean false, exactly as
when the field is omitted. -/
theorem putTodo_status_or_false (body : UpdateBody) (now : Nat)
    (ht : optTruthy body.title = true)
    (hd : optTruthy body.description = true) :
    ∃ u, (putTodo body now).write = some u ∧
      u.status = jsOrFalse body.status ∧
      (∀ v, body.status = some v → v.truthy = true → u.status = v) ∧
      (∀ v, body.status = some v → v.truthy = false →
        u.status = .vBool false) ∧
      (body.status = none → u.status = .vBool false) := by
  refine ⟨{ title := body.title.getD .vNull,
            description := body.description.getD .vNull,
            status := jsOrFalse body.status, updatedAt := now },
          ?_, rfl, ?_, ?_, ?_⟩
  · unfold putTodo
    simp [ht, hd]
  · intro v hv htr
    simp [jsOrFalse, hv, htr]
  · intro v hv hfa
    simp [jsOrFalse, hv, hfa]
  · intro h
    simp [jsOrFalse, h]

theorem putTodo_status_or_false_witness :
    ∃ u, (putTodo { title := some (.vStr "T"),
                    description := some (.vStr "D"),
                    status := some (.vStr "done") } 9).write = some u ∧
      u.status = jsOrFalse (some (.vStr "done")) ∧
      (∀ v, (some (.vStr "done") : Option JsValue) = some v →
        v.truthy = true → u.status = v) ∧
      (∀ v, (some (.vStr "done") : Option JsValue) = some v →
        v.truthy = false → u.status = .vBool false) ∧
      ((some (.vStr "done") : Option JsValue) = none →
        u.status = .vBool false) :=
  putTodo_status_or_false
    { title := some (.vStr "T"), description := some (.vStr "D"),
      status := some (.vStr "done") } 9 (by decide) (by decide)

/-- C5: every record a write handler sends to a store has truthy (hence, for
strings, non-empty) required fields — title/description for tasks,
username/message for chat — and each write handler answers 400 with no
store write when a required field is missing or falsy. -/
theorem boundary_write_invariants :
    (∀ (body : CreateBody) (now : Nat) (assignedId : String)
        (t : TaskRecord), (postToDoList body now assignedId).write = some t →
      t.title.truthy = true ∧ t.description.truthy = true ∧
      (∀ s, t.title = .vStr s → s ≠ "") ∧
      (∀ s, t.description = .vStr s → s ≠ "")) ∧
    (∀ (body : UpdateBody) (now : Nat) (u : UpdateRecord),
        (putTodo body now).write = some u →
      u.title.truthy = true ∧ u.description.truthy = true ∧
      (∀ s, u.title = .vStr s → s ≠ "") ∧
      (∀ s, u.description = .vStr s → s ≠ "")) ∧
    (∀ (body : ChatBody) (now : Nat) (key : String) (m : ChatWrite),
        (postChat body now key).write = some m →
      m.username.truthy = true ∧ m.message.truthy = true ∧
      (∀ s, m.username = .vStr s → s ≠ "") ∧
      (∀ s, m.message = .vStr s → s ≠ "")) ∧
    (∀ (body : CreateBody) (now : Nat) (assignedId : String),
        (optTruthy body.title = false ∨ optTruthy body.description = false) →
      (postToDoList body now assignedId).status = 400 ∧
      (postToDoList body now assignedId).write = none) ∧
    (∀ (body : UpdateBody) (now : Nat),
        (optTruthy body.title = false ∨ optTruthy body.description = false) →
      (putTodo body now).status = 400 ∧ (putTodo body now).write = none) ∧
    (∀ (body : ChatBody) (now : Nat) (key : String),
        (optTruthy body.username = false ∨ optTruthy body.message = false) →
      (postChat body now key).status = 400 ∧
      (postChat body now key).write = none) := by
  refine ⟨?_, ?_, ?_, ?_, ?_, ?_⟩
  · intro body now assignedId t hw
    unfold postToDoList at hw
    by_cases h1 : optTruthy body.title <;>
      by_cases h2 : optTruthy body.description <;> simp [h1, h2] at hw
    obtain ⟨v1, hv1, htr1⟩ := optTruthy_some h1
    obtain ⟨v2, hv2, htr2⟩ := optTruthy_some h2
    have e1 : t.title = v1 := by rw [← hw]; simp [hv1]
    have e2 : t.description = v2 := by rw [← hw]; simp [hv2]
    rw [e1, e2]
    exact ⟨htr1, htr2, fun s hs => truthy_vStr_ne (hs ▸ htr1),
           fun s hs => truthy_vStr_ne (hs ▸ htr2)⟩
  · intro body now u hw
    unfold putTodo at hw
    by_cases h1 : optTruthy body.title <;>
      by_cases h2 : optTruthy body.description <;> simp [h1, h2] at hw
    obtain ⟨v1, hv1, htr1⟩ := optTruthy_some h1
    obtain ⟨v2, hv2, htr2⟩ := optTruthy_some h2
    have e1 : u.title = v1 := by rw [← hw]; simp [hv1]
    have e2 : u.description = v2 := by rw [← hw]; simp [hv2]
    rw [e1, e2]
    exact ⟨htr1, htr2, fun s hs => truthy_vStr_ne (hs ▸ htr1),
           fun s hs => truthy_vStr_ne (hs ▸ htr2)⟩
  · intro body now key m hw
    unfold postChat at hw
    by_cases h1 : optTruthy body.username <;>
      by_cases h2 : optTruthy body.message <;> simp [h1, h2] at hw
    obtain ⟨v1, hv1, htr1⟩ := optTruthy_some h1
    obtain ⟨v2, hv2, htr2⟩ := optTruthy_some h2
    have e1 : m.username = v1 := by rw [← hw]; simp [hv1]
    have e2 : m.message = v2 := by rw [← hw]; simp [hv2]
    rw [e1, e2]
    exact ⟨htr1, htr2, fun s hs => truthy_vStr_ne (hs ▸ htr1),
           fun s hs => truthy_vStr_ne (hs ▸ htr2)⟩
  · intro body now assignedId h
    unfold postToDoList
    rcases h with h | h <;> simp [h]
  · intro body now h
    unfold putTodo
    rcases h with h | h <;> simp [h]
  · intro body now key h
    unfold postChat
    rcases h with h | h <;> simp [h]

theorem boundary_write_invariants_witness :
    ((postToDoList { title := some (.vStr ""),
                     description := some (.vStr "B") } 3 "k1").status = 400 ∧
     (postToDoList { title := some (.vStr ""),
                     description := some (.vStr "B") } 3 "k1").write = none) ∧
    ((postChat { username := none,
                 message := some (.vStr "hi") } 3 "k2").status = 400 ∧
     (postChat { username := none,
                 message := some (.vStr "hi") } 3 "k2").write = none) :=
  ⟨boundary_write_invariants.2.2.2.1
     { title := some (.vStr ""), description := some (.vStr "B") } 3 "k1"
     (Or.inl (by decide)),
   boundary_write_invariants.2.2.2.2.2
     { username := none, message := some (.vStr "hi") } 3 "k2"
     (Or.inl (by decide))⟩

theorem listHandler_eq (params : ListParams) (store : List ListTask) :
    listHandler params store =
      if (baseQuery params.search store).isEmpty then
        { status := 404, tasks := [] }
      else
        { status := 200
          tasks := sortTasks params.sortBy (params.order.getD "desc")
                     ((baseQuery params.search store).filter
                        (matchesSearch params.search)) } := rfl

/-- C2: GET /list answers 404 exactly when the base store query (before the
in-memory substring filter) is empty; a non-empty base result always yields
200, even when the filter removes every fetched task. -/
theorem listHandler_404_iff (params : ListParams) (store : List ListTask) :
    ((listHandler params store).status = 404 ↔
      baseQuery params.search store = []) ∧
    (baseQuery params.search store ≠ [] →
      (listHandler params store).status = 200) := by
  rw [listHandler_eq]
  by_cases h : (baseQuery params.search store).isEmpty = true
  · have hnil : baseQuery params.search store = [] := by
      simpa using h
    simp [h, hnil]
  · have hnil : baseQuery params.search store ≠ [] := by
      simpa using h
    simp [h, hnil]

theorem listHandler_404_iff_witness :
    (listHandler { sortBy := none, order := none, search := none }
        [] ).status = 404 ↔
      baseQuery none ([] : List ListTask) = [] :=
  (listHandler_404_iff { sortBy := none, order := none, search := none }
    []).1

/-- C4: with a non-empty search parameter, every task GET /list returns has
the search string as a case-insensitive substring of its title or of its
description. -/
theorem listHandler_search_authoritative (params : ListParams)
    (store : List ListTask) (s : String)
    (hs : params.search = some s) (hne : s ≠ "") :
    ∀ t ∈ (listHandler params store).tasks,
      strIncludes (strToLower t.title) (strToLower s) = true ∨
      strIncludes (strToLower t.description) (strToLower s) = true := by
  intro t ht
  rw [listHandler_eq] at ht
  by_cases h : (baseQuery params.search store).isEmpty = true
  · simp [h] at ht
  · simp only [h, if_neg, Bool.false_eq_true, not_false_iff, if_false] at ht
    have ht2 : t ∈ (baseQuery params.search store).filter
        (matchesSearch params.search) := mem_sortTasks.mp ht
    have hm := (List.mem_filter.mp ht2).2
    rw [hs] at hm
    unfold matchesSearch at hm
    simp only [strOptTruthy, Option.getD_some] at hm
    rw [show (s == "") = false by simpa using hne] at hm
    simpa using hm

/-- C9: with a non-empty search parameter, GET /list never returns a task
whose title falls outside the store range [search, search + U+F8FF]: the
title-range prefilter restricts the candidate set before the in-memory
substring filter runs. -/
theorem listHandler_range_restricts (params : ListParams)
    (store : List ListTask) (s : String)
    (hs : params.search = some s) (hne : s ≠ "") :
    ∀ t ∈ (listHandler params store).tasks,
      titleInRange s t.title = true ∧
      strLe s t.title = true ∧ strLe t.title (s ++ "") = true := by
  intro t ht
  rw [listHandler_eq] at ht
  by_cases h : (baseQuery params.search store).isEmpty = true
  · simp [h] at ht
  · simp only [h, if_neg, Bool.false_eq_true, not_false_iff, if_false] at ht
    have ht2 : t ∈ (baseQuery params.search store).filter
        (matchesSearch params.search) := mem_sortTasks.mp ht
    have htbase := (List.mem_filter.mp ht2).1
    unfold baseQuery at htbase
    rw [hs] at htbase
    simp only [strOptTruthy, Option.getD_some] at htbase
    rw [show (s == "") = false by simpa using hne] at htbase
    simp only [Bool.not_false, if_pos] at htbase
    have hrange := (List.mem_filter.mp htbase).2
    have hsplit : strLe s t.title = true ∧
        strLe t.title (s ++ "") = true := by
      simpa [titleInRange] using hrange
    exact ⟨hrange, hsplit.1, hsplit.2⟩

theorem pairwise_mergeSort_tsLe (o : String) (l : List ListTask) :
    (l.mergeSort (tsLe o)).Pairwise (fun a b => tsLe o a b = true) := by
  simpa using List.sorted_mergeSort
    (fun a b c => tsLe_trans o a b c) (fun a b => tsLe_total o a b) l

theorem sortTasks_timestamp_pairwise (o : String) (l : List ListTask) :
    (sortTasks (some "timestamp") o l).Pairwise
      (fun a b => tsLe o a b = true) := by
  unfold sortTasks
  rw [if_pos rfl]
  exact pairwise_mergeSort_tsLe o l

/-- C7: GET /list with `sortBy=timestamp` returns tasks in non-decreasing
`createdAt` order for `order=asc` and non-increasing order for `order=desc`
or an absent `order` (the default); with no `sortBy` the fetched store
order is returned unchanged (the result is a sublist of the base query
result). -/
theorem listHandler_sorting (params : ListParams) (store : List ListTask) :
    (params.sortBy = some "timestamp" → params.order = some "asc" →
      (listHandler params store).tasks.Pairwise
        (fun a b => a.createdAt ≤ b.createdAt)) ∧
    (params.sortBy = some "timestamp" →
      (params.order = none ∨ params.order = some "desc") →
      (listHandler params store).tasks.Pairwise
        (fun a b => b.createdAt ≤ a.createdAt)) ∧
    (params.sortBy = none →
      (listHandler params store).tasks.Sublist
        (baseQuery params.search store)) := by
  rw [listHandler_eq]
  by_cases h : (baseQuery params.search store).isEmpty = true
  · simp [h]
  · simp only [h, Bool.false_eq_true, not_false_iff, if_false]
    refine ⟨?_, ?_, ?_⟩
    · intro hsb hord
      rw [hsb, hord]
      have hp := sortTasks_timestamp_pairwise ((some "asc").getD "desc")
        ((baseQuery params.search store).filter (matchesSearch params.search))
      exact hp.imp (fun hab => by simpa [tsLe] using hab)
    · intro hsb hord
      rw [hsb]
      rcases hord with hord | hord <;> rw [hord]
      · have hp := sortTasks_timestamp_pairwise
          ((none : Option String).getD "desc")
          ((baseQuery params.search store).filter
            (matchesSearch params.search))
        exact hp.imp (fun hab => by simpa [tsLe] using hab)
      · have hp := sortTasks_timestamp_pairwise ((some "desc").getD "desc")
          ((baseQuery params.search store).filter
            (matchesSearch params.search))
        exact hp.imp (fun hab => by simpa [tsLe] using hab)
    · intro hsb
      rw [hsb]
      unfold sortTasks
      simp only [reduceCtorEq, if_false]
      exact List.filter_sublist _

theorem listHandler_sorting_witness :
    (listHandler { sortBy := some "timestamp", order := some "asc",
                   search := none }
      [{ id := "1", title := "a", description := "d", status := false,
         createdAt := 9 },
       { id := "2", title := "b", description := "e", status := true,
         createdAt := 4 }]).tasks.Pairwise
      (fun a b => a.createdAt ≤ b.createdAt) :=
  (listHandler_sorting
    { sortBy := some "timestamp", order := some "asc", search := none }
    [{ id := "1", title := "a", description := "d", status := false,
       createdAt := 9 },
     { id := "2", title := "b", description := "e", status := true,
       createdAt := 4 }]).1 rfl rfl

theorem chatLe_trans (a b c : String × ChatMsg)
    (h1 : chatLe a b) (h2 : chatLe b c) : chatLe a c := by
  unfold chatLe at h1 h2 ⊢
  simp_all
  omega

theorem chatLe_total (a b : String × ChatMsg) : chatLe a b || chatLe b a := by
  unfold chatLe
  simp
  omega

theorem orderedChildren_pairwise (store : List (String × ChatMsg)) :
    (orderedChildren store).Pairwise (fun a b => chatLe a b = true) := by
  unfold orderedChildren
  simpa using List.sorted_mergeSort chatLe_trans chatLe_total store

theorem getChats_eq (store : List (String × ChatMsg)) :
    getChats store =
      if (orderedChildren store).isEmpty then
        { status := 404, messages := [] }
      else
        { status := 200, messages := (orderedChildren store).map tagMsg } :=
  rfl

/-- C8: GET /chats answers 404 exactly when the chats path has no children;
otherwise it answers 200 with every stored message — tagged with its child
key as `id` — in the store's timestamp-ascending child order. -/
theorem getChats_spec (store : List (String × ChatMsg)) :
    ((getChats store).status = 404 ↔ store = []) ∧
    (store ≠ [] →
      (getChats store).status = 200 ∧
      (getChats store).messages = (orderedChildren store).map tagMsg ∧
      ((getChats store).messages.map
          (fun m => (m.id, ({ username := m.username, message := m.message,
                              timestamp := m.timestamp } : ChatMsg)))).Perm
        store ∧
      (getChats store).messages.Pairwise
        (fun a b => a.timestamp ≤ b.timestamp)) := by
  have hperm : (orderedChildren store).Perm store :=
    List.mergeSort_perm store chatLe
  have hnil : orderedChildren store = [] ↔ store = [] := by
    constructor
    · intro h
      exact ((h ▸ hperm).symm.eq_nil)
    · intro h
      subst h
      simp [orderedChildren]
  rw [getChats_eq]
  by_cases h : (orderedChildren store).isEmpty = true
  · have h1 : orderedChildren store = [] := by simpa using h
    have h2 : store = [] := hnil.mp h1
    subst h2
    rw [if_pos h]
    simp
  · rw [if_neg h]
    have h1 : store ≠ [] := fun hst => by
      rw [hnil.mpr hst] at h
      simp at h
    refine ⟨by simp [h1], fun _ => ⟨rfl, rfl, ?_, ?_⟩⟩
    · have hmm : (((orderedChildren store).map tagMsg).map
          (fun m => (m.id, ({ username := m.username, message := m.message,
                              timestamp := m.timestamp } : ChatMsg)))) =
          orderedChildren store := by
        rw [List.map_map]
        have hco : ((fun m : TaggedMsg =>
            (m.id, ({ username := m.username, message := m.message,
                      timestamp := m.timestamp } : ChatMsg))) ∘ tagMsg) =
            id := funext fun kv => rfl
        rw [hco, List.map_id]
      rw [hmm]
      exact hperm
    · exact (orderedChildren_pairwise store).map tagMsg
        (fun a b hab => by simpa [chatLe, tagMsg] using hab)

theorem getChats_spec_witness :
    (getChats [("k1", { username := .vStr "u", message := .vStr "hi",
                        timestamp := 5 })]).status = 200 ∧
    (getChats [("k1", { username := .vStr "u", message := .vStr "hi",
                        timestamp := 5 })]).messages =
      (orderedChildren [("k1", { username := .vStr "u",
                                 message := .vStr "hi",
                                 timestamp := 5 })]).map tagMsg ∧
    ((getChats [("k1", { username := .vStr "u", message := .vStr "hi",
                         timestamp := 5 })]).messages.map
        (fun m => (m.id, ({ username := m.username, message := m.message,
                            timestamp := m.timestamp } : ChatMsg)))).Perm
      [("k1", { username := .vStr "u", message := .vStr "hi",
                timestamp := 5 })] ∧
    (getChats [("k1", { username := .vStr "u", message := .vStr "hi",
                        timestamp := 5 })]).messages.Pairwise
      (fun a b => a.timestamp ≤ b.timestamp) :=
  (getChats_spec [("k1", { username := .vStr "u", message := .vStr "hi",
                           timestamp := 5 })]).2 (by simp)

theorem listHandler_search_authoritative_witness :
    strIncludes (strToLower "alpha") (strToLower "al") = true ∨
    strIncludes (strToLower "d") (strToLower "al") = true :=
  listHandler_search_authoritative
    { sortBy := none, order := none, search := some "al" }
    [{ id := "1", title := "alpha", description := "d", status := false,
       createdAt := 3 }]
    "al" rfl (by decide)
    { id := "1", title := "alpha", description := "d", status := false,
      createdAt := 3 }
    (by decide)

def sampleTask : ListTask :=
  { id := "1", title := "alpha", description := "d", status := false,
    createdAt := 3 }

theorem listHandler_range_restricts_witness :
    titleInRange "al" sampleTask.title = true ∧
    strLe "al" sampleTask.title = true ∧
    strLe sampleTask.title ("al" ++ "") = true :=
  listHandler_range_restricts
    { sortBy := none, order := none, search := some "al" }
    [sampleTask] "al" rfl (by decide) sampleTask (by decide)
